import Mathlib

/-!
Shallow embedding of the aws-highly-available-three-tier-architecture repository:
the configuration-to-resource-graph derivation of the stack and, at its core, the
tier-isolation security-group wiring of `SecurityGroupsConstruct`
(src/lib/constructs/networking/security-group-construct.ts) and the auto-scaling
construct of src/lib/constructs/compute/app-tier-asg-construct.ts, together with
the top-level assembly in src/lib/stack.ts.

Constructs whose source files are not part of the repository snapshot (the VPC,
ALB, web-tier ASG, RDS and network-ACL constructs) are modelled from the
specification, each marked as such in its doc comment.
-/

namespace ThreeTier

/-- The four tiers whose security groups `SecurityGroupsConstruct` creates:
load balancer (edge), web tier (presentation), app tier (business logic),
database (data). -/
inductive Tier
  | alb
  | web
  | app
  | db
deriving DecidableEq, Repr

/-- A peer of a security-group rule: another security group (identified by its
tier), a literal IPv4 CIDR (`ec2.Peer.ipv4`), or any IPv4 address
(`ec2.Peer.anyIpv4`). -/
inductive Peer
  | sg (t : Tier)
  | ipv4 (cidr : String)
  | anyIpv4
deriving DecidableEq, Repr

/-- One stateful allow rule of a security group, as added with
`addIngressRule` / `addEgressRule`: a peer, a protocol with a port
(all rules in the source use `ec2.Port.tcp`), and a description. -/
structure Rule where
  peer : Peer
  protocol : String
  port : Nat
  description : String
deriving DecidableEq, Repr

/-- Shorthand for the `ec2.Port.tcp` rules the source emits. -/
def tcpRule (p : Peer) (port : Nat) (d : String) : Rule :=
  { peer := p, protocol := "tcp", port := port, description := d }

/-- A security group: its description, its `allowAllOutbound` flag, and the
ingress and egress allow rules added to it, in source order. -/
structure SecurityGroup where
  description : String
  allowAllOutbound : Bool
  ingress : List Rule
  egress : List Rule
deriving DecidableEq, Repr

/-- The props of `SecurityGroupsConstruct`
(src/lib/constructs/networking/security-group-construct.ts, interface
`SecurityGroupsConstructProps`). The `vpc` and resource-name props do not
influence any rule and are omitted. -/
structure SecurityGroupsProps where
  allowHttpFrom : String
  httpPort : Nat
  httpsPort : Nat
  appTierPort : Nat
  dbPort : Nat
  albAllowAllOutbound : Option Bool
  webTierAllowAllOutbound : Option Bool
  appTierAllowAllOutbound : Option Bool
  dbAllowAllOutbound : Option Bool
  allowPackageDownloads : Option Bool
deriving DecidableEq, Repr

/-- The two internet-bound egress rules added to a tier when package downloads
are allowed (security-group-construct.ts lines 235-258). -/
def packageDownloadRules (httpPort httpsPort : Nat) : List Rule :=
  [ tcpRule Peer.anyIpv4 httpPort "Allow HTTP for package downloads",
    tcpRule Peer.anyIpv4 httpsPort "Allow HTTPS for package downloads" ]

/-- The four security groups that `SecurityGroupsConstruct` exposes as public
readonly fields. -/
structure SecurityGroups where
  albSecurityGroup : SecurityGroup
  webTierSecurityGroup : SecurityGroup
  appTierSecurityGroup : SecurityGroup
  dbSecurityGroup : SecurityGroup
deriving DecidableEq, Repr

/-- The constructor body of `SecurityGroupsConstruct`
(security-group-construct.ts lines 154-260): each group is created with
`allowAllOutbound` defaulted to false, and the ingress/egress rules are those
added by the constructor, listed in the order of the `addIngressRule` /
`addEgressRule` calls. -/
def securityGroupsConstruct (props : SecurityGroupsProps) : SecurityGroups :=
  let pkg := props.allowPackageDownloads.getD true
  { albSecurityGroup :=
      { description := "Security group for Application Load Balancer"
        allowAllOutbound := props.albAllowAllOutbound.getD false
        ingress :=
          [tcpRule (Peer.ipv4 props.allowHttpFrom) props.httpPort
            "Allow HTTP traffic from internet"]
        egress :=
          [tcpRule (Peer.sg Tier.web) props.httpPort
            "Allow outbound to Web Tier instances"] }
    webTierSecurityGroup :=
      { description := "Security group for Web Tier instances"
        allowAllOutbound := props.webTierAllowAllOutbound.getD false
        ingress :=
          [tcpRule (Peer.sg Tier.alb) props.httpPort
            "Allow HTTP traffic from ALB only"]
        egress :=
          [tcpRule (Peer.sg Tier.app) props.appTierPort
            "Allow outbound to App Tier instances"]
          ++ (if pkg then packageDownloadRules props.httpPort props.httpsPort else []) }
    appTierSecurityGroup :=
      { description := "Security group for Application Tier instances"
        allowAllOutbound := props.appTierAllowAllOutbound.getD false
        ingress :=
          [tcpRule (Peer.sg Tier.web) props.appTierPort
            "Allow traffic from Web Tier only"]
        egress :=
          [tcpRule (Peer.sg Tier.db) props.dbPort
            "Allow outbound to database"]
          ++ (if pkg then packageDownloadRules props.httpPort props.httpsPort else []) }
    dbSecurityGroup :=
      { description := "Security group for RDS database"
        allowAllOutbound := props.dbAllowAllOutbound.getD false
        ingress :=
          [tcpRule (Peer.sg Tier.app) props.dbPort
            "Allow MySQL/MariaDB traffic from App Tier instances only"]
        egress := [] } }

/-- The security group of a given tier. -/
def SecurityGroups.group (g : SecurityGroups) : Tier → SecurityGroup
  | Tier.alb => g.albSecurityGroup
  | Tier.web => g.webTierSecurityGroup
  | Tier.app => g.appTierSecurityGroup
  | Tier.db => g.dbSecurityGroup

/-- Whether a peer is a security-group identity (as opposed to an address
range). -/
def Peer.isSg : Peer → Bool
  | Peer.sg _ => true
  | _ => false

/-- Whether a peer is the any-IPv4 address range. -/
def Peer.isAnyIpv4 : Peer → Bool
  | Peer.anyIpv4 => true
  | _ => false

/-- Whether a rule names the security group of tier `t` as its peer. -/
def Rule.targetsTier (r : Rule) (t : Tier) : Bool :=
  match r.peer with
  | Peer.sg u => u = t
  | _ => false

/-- There is an egress rule on the security group of `s` whose peer is the
security group of `d`, on port `p`. -/
def egressTo (g : SecurityGroups) (s d : Tier) (p : Nat) : Bool :=
  (g.group s).egress.any fun r => r.targetsTier d && r.port = p

/-- There is an ingress rule on the security group of `d` whose peer is the
security group of `s`, on port `p`. -/
def ingressFrom (g : SecurityGroups) (d s : Tier) (p : Nat) : Bool :=
  (g.group d).ingress.any fun r => r.targetsTier s && r.port = p

/-- Some tier-to-tier allow rule for traffic from `s` to `d` exists, on any
port: an egress rule on the group of `s` naming the group of `d`, or an ingress
rule on the group of `d` naming the group of `s`. -/
def tierToTierRule (g : SecurityGroups) (s d : Tier) : Bool :=
  ((g.group s).egress.any fun r => r.targetsTier d)
  || ((g.group d).ingress.any fun r => r.targetsTier s)

/-- The directed adjacency of the tier chain
ALB -> web tier -> app tier -> database. -/
def adjacentPair : Tier → Tier → Bool
  | Tier.alb, Tier.web => true
  | Tier.web, Tier.app => true
  | Tier.app, Tier.db => true
  | _, _ => false

/-- The subnet tiers of the VPC (`ec2.SubnetType`). -/
inductive SubnetType
  | PUBLIC
  | PRIVATE_WITH_EGRESS
  | PRIVATE_ISOLATED
deriving DecidableEq, Repr

/-- The subnet-type mapping of `AppTierAsgConstruct`
(app-tier-asg-construct.ts lines 62-66): the keyword PUBLIC maps to the public
subnet tier, PRIVATE_ISOLATED to the isolated tier, and every other value,
an absent one included, to PRIVATE_WITH_EGRESS. -/
def subnetTypeOf (s : Option String) : SubnetType :=
  if s = some "PUBLIC" then SubnetType.PUBLIC
  else if s = some "PRIVATE_ISOLATED" then SubnetType.PRIVATE_ISOLATED
  else SubnetType.PRIVATE_WITH_EGRESS

/-- The EBS block device of an auto-scaling group
(app-tier-asg-construct.ts lines 80-90). -/
structure BlockDevice where
  deviceName : String
  volumeSize : Nat
  encrypted : Bool
  deleteOnTermination : Bool
  iops : Nat
deriving DecidableEq, Repr

/-- The props of `AppTierAsgConstruct` (interface `AppTierAsgConstructProps`)
that shape the derived descriptor. The `vpc`, `securityGroup`, machine image,
instance shape, resource-name and user-data-path props only carry opaque
references or names and are omitted. -/
structure AsgProps where
  minCapacity : Nat
  maxCapacity : Nat
  desiredCapacity : Nat
  healthCheckType : String
  healthCheckGracePeriod : Nat
  cooldown : Nat
  targetCpuUtilization : Nat
  volumeSize : Nat
  encrypted : Bool
  deleteOnTermination : Bool
  iops : Nat
  deviceName : String
  requireImdsv2 : Option Bool
  subnetType : Option String
deriving DecidableEq, Repr

/-- The auto-scaling-group descriptor an ASG construct derives. -/
structure AsgDescriptor where
  minCapacity : Nat
  maxCapacity : Nat
  desiredCapacity : Nat
  subnetType : SubnetType
  cooldown : Nat
  requireImdsv2 : Bool
  healthCheckType : String
  healthCheckGracePeriod : Nat
  blockDevice : BlockDevice
  attachedToTargetGroup : Bool
deriving DecidableEq, Repr

/-- The CPU target-tracking scaling policy added with
`scaleOnCpuUtilization` (app-tier-asg-construct.ts lines 108-111). -/
structure CpuScalingPolicy where
  targetUtilizationPercent : Nat
  cooldown : Nat
deriving DecidableEq, Repr

/-- The constructor body of `AppTierAsgConstruct`
(app-tier-asg-construct.ts lines 58-112): one auto-scaling group carrying the
configured capacities, subnet type, cooldown, IMDSv2 flag (defaulting to true),
health-check settings and block device, not attached to the ALB target group
(line 99), plus one CPU target-tracking scaling policy. -/
def appTierAsgConstruct (props : AsgProps) : AsgDescriptor × CpuScalingPolicy :=
  ({ minCapacity := props.minCapacity
     maxCapacity := props.maxCapacity
     desiredCapacity := props.desiredCapacity
     subnetType := subnetTypeOf props.subnetType
     cooldown := props.cooldown
     requireImdsv2 := props.requireImdsv2.getD true
     healthCheckType := props.healthCheckType
     healthCheckGracePeriod := props.healthCheckGracePeriod
     blockDevice :=
       { deviceName := props.deviceName
         volumeSize := props.volumeSize
         encrypted := props.encrypted
         deleteOnTermination := props.deleteOnTermination
         iops := props.iops }
     attachedToTargetGroup := false },
   { targetUtilizationPercent := props.targetCpuUtilization
     cooldown := props.cooldown })

/-- Modelled from the spec: the web-tier compute construct (its source file,
web-tier-asg-construct.ts, is not part of the repository snapshot) wires
capacity bounds, subnet type, cooldown, health checks and the CPU
target-tracking policy exactly as the business-logic tier construct does, and
additionally attaches the group to the load balancer target group
("optional load-balancer target attachment (presentation tier only)"). -/
def webTierAsgConstruct (props : AsgProps) : AsgDescriptor × CpuScalingPolicy :=
  let ap := appTierAsgConstruct props
  ({ ap.1 with attachedToTargetGroup := true }, ap.2)

/-- Per-tier compute settings of the configuration document
(the fields stack.ts reads from StackConfig.compute.webTier and
StackConfig.compute.appTier). -/
structure ComputeTierConfig where
  minCapacity : Nat
  maxCapacity : Nat
  desiredCapacity : Nat
  healthCheckType : String
  healthCheckGracePeriod : Nat
  cooldown : Nat
  targetCpuUtilization : Nat
  requireImdsv2 : Option Bool
  subnetType : Option String
deriving DecidableEq, Repr

/-- Shared storage settings of the configuration document
(StackConfig.compute.storage). -/
structure StorageConfig where
  volumeSize : Nat
  encrypted : Bool
  deleteOnTermination : Bool
  iops : Nat
  deviceName : String
deriving DecidableEq, Repr

/-- Database settings of the configuration document (StackConfig.database)
that shape the derived descriptor. -/
structure DatabaseConfig where
  engine : String
  multiAz : Bool
  allocatedStorage : Nat
  maxAllocatedStorage : Nat
  backupRetention : Nat
  deletionProtection : Bool
  storageEncrypted : Bool
deriving DecidableEq, Repr

/-- The configuration document, restricted to the settings stack.ts reads
that shape the resources the claims are about (StackConfig sections network,
compute, database). -/
structure Config where
  cidr : String
  maxAzs : Nat
  allowHttpFrom : String
  httpPort : Nat
  httpsPort : Nat
  appTierPort : Nat
  dbPort : Nat
  albAllowAllOutbound : Option Bool
  webTierAllowAllOutbound : Option Bool
  appTierAllowAllOutbound : Option Bool
  dbAllowAllOutbound : Option Bool
  allowPackageDownloads : Option Bool
  webTier : ComputeTierConfig
  appTier : ComputeTierConfig
  storage : StorageConfig
  database : DatabaseConfig
deriving DecidableEq, Repr

/-- One node of the derived resource graph. -/
inductive Resource
  | vpc (cidr : String)
  | subnet (tier : SubnetType) (az : Nat)
  | natGateway (az : Nat)
  | internetGateway
  | networkAcl (scopeName : String)
  | securityGroup (sg : SecurityGroup)
  | loadBalancer (internetFacing : Bool)
  | targetGroup (port : Nat)
  | listener (port : Nat)
  | autoScalingGroup (asg : AsgDescriptor)
  | scalingPolicy (p : CpuScalingPolicy)
  | dbInstance (db : DatabaseConfig)
  | secret
deriving DecidableEq, Repr

/-- Modelled from the spec: the network component (its source file,
vpc-construct.ts, is not part of the repository snapshot) declares one virtual
network with "three subnet-tier groups (public, private-with-egress, isolated)
each replicated per zone", one NAT egress point per availability zone, and an
internet gateway. -/
def vpcConstruct (cidr : String) (maxAzs : Nat) : List Resource :=
  [Resource.vpc cidr]
  ++ ((List.range maxAzs).map (Resource.subnet SubnetType.PUBLIC))
  ++ ((List.range maxAzs).map (Resource.subnet SubnetType.PRIVATE_WITH_EGRESS))
  ++ ((List.range maxAzs).map (Resource.subnet SubnetType.PRIVATE_ISOLATED))
  ++ ((List.range maxAzs).map Resource.natGateway)
  ++ [Resource.internetGateway]

/-- Modelled from the spec: the network-ACL component (its source file,
network-acl-construct.ts, is not part of the repository snapshot) declares
stateless ordered rule lists for the public and the private subnet tiers
(the repository test suite counts two network ACLs). -/
def networkAclConstruct : List Resource :=
  [Resource.networkAcl "Public", Resource.networkAcl "Private"]

/-- Modelled from the spec: the load-balancing component (its source file,
alb-construct.ts, is not part of the repository snapshot) declares "a
internet-facing load balancer, a health-checked target group, and a listener,
both pointed at the presentation tier only". -/
def albConstruct (targetGroupPort listenerPort : Nat) : List Resource :=
  [Resource.loadBalancer true, Resource.targetGroup targetGroupPort,
   Resource.listener listenerPort]

/-- Modelled from the spec: the data component (its source file,
database-instance-construct.ts, is not part of the repository snapshot)
declares one "managed relational database with multi-zone replication,
automated backups, encryption, and credential storage in a secret store". -/
def rdsConstruct (db : DatabaseConfig) : List Resource :=
  [Resource.dbInstance db, Resource.secret]

/-- The security-group props stack.ts passes to `SecurityGroupsConstruct`
(stack.ts lines 106-122). -/
def Config.toSecurityGroupsProps (cfg : Config) : SecurityGroupsProps :=
  { allowHttpFrom := cfg.allowHttpFrom
    httpPort := cfg.httpPort
    httpsPort := cfg.httpsPort
    appTierPort := cfg.appTierPort
    dbPort := cfg.dbPort
    albAllowAllOutbound := cfg.albAllowAllOutbound
    webTierAllowAllOutbound := cfg.webTierAllowAllOutbound
    appTierAllowAllOutbound := cfg.appTierAllowAllOutbound
    dbAllowAllOutbound := cfg.dbAllowAllOutbound
    allowPackageDownloads := cfg.allowPackageDownloads }

/-- The ASG props stack.ts passes for a compute tier (stack.ts lines 145-170
and 173-197): the per-tier settings plus the shared storage settings. -/
def asgPropsOf (tier : ComputeTierConfig) (storage : StorageConfig) : AsgProps :=
  { minCapacity := tier.minCapacity
    maxCapacity := tier.maxCapacity
    desiredCapacity := tier.desiredCapacity
    healthCheckType := tier.healthCheckType
    healthCheckGracePeriod := tier.healthCheckGracePeriod
    cooldown := tier.cooldown
    targetCpuUtilization := tier.targetCpuUtilization
    volumeSize := storage.volumeSize
    encrypted := storage.encrypted
    deleteOnTermination := storage.deleteOnTermination
    iops := storage.iops
    deviceName := storage.deviceName
    requireImdsv2 := tier.requireImdsv2
    subnetType := tier.subnetType }

/-- The security groups the stack derives. -/
def Config.securityGroups (cfg : Config) : SecurityGroups :=
  securityGroupsConstruct cfg.toSecurityGroupsProps

/-- The web-tier scaling group and CPU policy the stack derives
(stack.ts lines 145-170). -/
def Config.webAsg (cfg : Config) : AsgDescriptor × CpuScalingPolicy :=
  webTierAsgConstruct (asgPropsOf cfg.webTier cfg.storage)

/-- The app-tier scaling group and CPU policy the stack derives
(stack.ts lines 173-197). -/
def Config.appAsg (cfg : Config) : AsgDescriptor × CpuScalingPolicy :=
  appTierAsgConstruct (asgPropsOf cfg.appTier cfg.storage)

/-- The top-level assembly (`HighlyAvailableStack`, stack.ts lines 47-243):
one pass instantiating, in order, the VPC, the network ACLs, the security
groups, the load balancer, the web-tier ASG, the app-tier ASG and the
database, wiring each construct's outputs into the next one's inputs. -/
def buildStack (cfg : Config) : List Resource :=
  let sgs := cfg.securityGroups
  vpcConstruct cfg.cidr cfg.maxAzs
  ++ networkAclConstruct
  ++ [Resource.securityGroup sgs.albSecurityGroup,
      Resource.securityGroup sgs.webTierSecurityGroup,
      Resource.securityGroup sgs.appTierSecurityGroup,
      Resource.securityGroup sgs.dbSecurityGroup]
  ++ albConstruct cfg.httpPort cfg.httpPort
  ++ [Resource.autoScalingGroup cfg.webAsg.1, Resource.scalingPolicy cfg.webAsg.2]
  ++ [Resource.autoScalingGroup cfg.appAsg.1, Resource.scalingPolicy cfg.appAsg.2]
  ++ rdsConstruct cfg.database

/-- Number of resources of the graph satisfying a predicate. -/
def countResources (p : Resource → Bool) (g : List Resource) : Nat :=
  (g.filter p).length

def Resource.isVpc : Resource → Bool
  | Resource.vpc _ => true
  | _ => false

def Resource.isSubnet : Resource → Bool
  | Resource.subnet _ _ => true
  | _ => false

def Resource.isNatGateway : Resource → Bool
  | Resource.natGateway _ => true
  | _ => false

def Resource.isSecurityGroup : Resource → Bool
  | Resource.securityGroup _ => true
  | _ => false

def Resource.isLoadBalancer : Resource → Bool
  | Resource.loadBalancer _ => true
  | _ => false

def Resource.isAutoScalingGroup : Resource → Bool
  | Resource.autoScalingGroup _ => true
  | _ => false

def Resource.isDbInstance : Resource → Bool
  | Resource.dbInstance _ => true
  | _ => false

/-- The development configuration document the repository test suite exercises
(part_000 lines 158-301: CIDR 10.0.0.0/16, two availability zones, ports
80/443/8080/3306, both tiers at capacity 2/6/2 with CPU target 70, ELB health
checks on the web tier, EC2 on the app tier, a Multi-AZ encrypted MySQL
database). -/
def devConfig : Config :=
  { cidr := "10.0.0.0/16"
    maxAzs := 2
    allowHttpFrom := "0.0.0.0/0"
    httpPort := 80
    httpsPort := 443
    appTierPort := 8080
    dbPort := 3306
    albAllowAllOutbound := none
    webTierAllowAllOutbound := none
    appTierAllowAllOutbound := none
    dbAllowAllOutbound := none
    allowPackageDownloads := none
    webTier :=
      { minCapacity := 2, maxCapacity := 6, desiredCapacity := 2
        healthCheckType := "ELB", healthCheckGracePeriod := 300
        cooldown := 300, targetCpuUtilization := 70
        requireImdsv2 := none, subnetType := none }
    appTier :=
      { minCapacity := 2, maxCapacity := 6, desiredCapacity := 2
        healthCheckType := "EC2", healthCheckGracePeriod := 300
        cooldown := 300, targetCpuUtilization := 70
        requireImdsv2 := none, subnetType := none }
    storage :=
      { volumeSize := 20, encrypted := true, deleteOnTermination := true
        iops := 3000, deviceName := "/dev/xvda" }
    database :=
      { engine := "mysql", multiAz := true, allocatedStorage := 20
        maxAllocatedStorage := 100, backupRetention := 7
        deletionProtection := false, storageEncrypted := true } }

example : tierToTierRule (securityGroupsConstruct devConfig.toSecurityGroupsProps)
    Tier.web Tier.db = false := by decide

example : tierToTierRule (securityGroupsConstruct devConfig.toSecurityGroupsProps)
    Tier.alb Tier.web = true := by decide

example : egressTo (securityGroupsConstruct devConfig.toSecurityGroupsProps)
    Tier.app Tier.db 3306 = true := by decide

/-- C1: for every configuration, the derived security groups carry an allow
rule for each adjacent pair of the chain ALB -> web -> app -> database, on the
destination port (httpPort, appTierPort, dbPort respectively), as both an
egress rule on the source group and an ingress rule on the destination group;
and every tier-to-tier allow rule is between an adjacent pair. -/
theorem securityGroups_chain_adjacency (props : SecurityGroupsProps) :
    (egressTo (securityGroupsConstruct props) Tier.alb Tier.web props.httpPort = true
      ∧ ingressFrom (securityGroupsConstruct props) Tier.web Tier.alb props.httpPort = true)
    ∧ (egressTo (securityGroupsConstruct props) Tier.web Tier.app props.appTierPort = true
      ∧ ingressFrom (securityGroupsConstruct props) Tier.app Tier.web props.appTierPort = true)
    ∧ (egressTo (securityGroupsConstruct props) Tier.app Tier.db props.dbPort = true
      ∧ ingressFrom (securityGroupsConstruct props) Tier.db Tier.app props.dbPort = true)
    ∧ (∀ s d : Tier, tierToTierRule (securityGroupsConstruct props) s d = true →
        adjacentPair s d = true) := by
  refine ⟨⟨?_, ?_⟩, ⟨?_, ?_⟩, ⟨?_, ?_⟩, ?_⟩
  · simp [egressTo, securityGroupsConstruct, SecurityGroups.group, Rule.targetsTier, tcpRule]
  · simp [ingressFrom, securityGroupsConstruct, SecurityGroups.group, Rule.targetsTier, tcpRule]
  · cases hp : props.allowPackageDownloads.getD true <;>
      simp [egressTo, securityGroupsConstruct, SecurityGroups.group, Rule.targetsTier,
        tcpRule, hp]
  · simp [ingressFrom, securityGroupsConstruct, SecurityGroups.group, Rule.targetsTier, tcpRule]
  · cases hp : props.allowPackageDownloads.getD true <;>
      simp [egressTo, securityGroupsConstruct, SecurityGroups.group, Rule.targetsTier,
        tcpRule, hp]
  · simp [ingressFrom, securityGroupsConstruct, SecurityGroups.group, Rule.targetsTier, tcpRule]
  · intro s d h
    revert h
    cases hp : props.allowPackageDownloads.getD true <;>
      cases s <;> cases d <;>
        simp [tierToTierRule, securityGroupsConstruct, SecurityGroups.group, Rule.targetsTier,
          tcpRule, packageDownloadRules, adjacentPair, hp]

/-- Witness for C1: in the development configuration the ALB-to-web rule is a
tier-to-tier rule, and the chain classifies it as adjacent. -/
theorem securityGroups_chain_adjacency_witness :
    adjacentPair Tier.alb Tier.web = true :=
  (securityGroups_chain_adjacency devConfig.toSecurityGroupsProps).2.2.2
    Tier.alb Tier.web (by decide)

/-- C2: whenever dbAllowAllOutbound is false or absent, the database security
group is created with allowAllOutbound disabled, receives no egress rule from
any part of the assembly, and its only rule is the single ingress rule from
the app tier on dbPort. -/
theorem dbSecurityGroup_no_egress (props : SecurityGroupsProps)
    (h : props.dbAllowAllOutbound = none ∨ props.dbAllowAllOutbound = some false) :
    (securityGroupsConstruct props).dbSecurityGroup.allowAllOutbound = false
    ∧ (securityGroupsConstruct props).dbSecurityGroup.egress = []
    ∧ (securityGroupsConstruct props).dbSecurityGroup.ingress
        = [tcpRule (Peer.sg Tier.app) props.dbPort
            "Allow MySQL/MariaDB traffic from App Tier instances only"] := by
  rcases h with h | h <;> simp [securityGroupsConstruct, h]

/-- Witness for C2: the development configuration leaves dbAllowAllOutbound
absent, and its database security group indeed has outbound disabled and an
empty egress rule list. -/
theorem dbSecurityGroup_no_egress_witness :
    (securityGroupsConstruct devConfig.toSecurityGroupsProps).dbSecurityGroup.allowAllOutbound
        = false
    ∧ (securityGroupsConstruct devConfig.toSecurityGroupsProps).dbSecurityGroup.egress = [] :=
  ⟨(dbSecurityGroup_no_egress devConfig.toSecurityGroupsProps (Or.inl rfl)).1,
   (dbSecurityGroup_no_egress devConfig.toSecurityGroupsProps (Or.inl rfl)).2.1⟩

/-- C8: the ALB (edge) ingress rule is the only ingress rule bound to an
address range; the web, app and database groups' ingress rules all reference
the preceding tier's security-group identity (ALB, web tier, app tier
respectively). -/
theorem ingress_identity_based (props : SecurityGroupsProps) :
    ((securityGroupsConstruct props).group Tier.alb).ingress
      = [tcpRule (Peer.ipv4 props.allowHttpFrom) props.httpPort
          "Allow HTTP traffic from internet"]
    ∧ (∀ t : Tier, t ≠ Tier.alb →
        (((securityGroupsConstruct props).group t).ingress.all fun r => r.peer.isSg) = true)
    ∧ ((((securityGroupsConstruct props).group Tier.web).ingress.all
        fun r => r.targetsTier Tier.alb) = true)
    ∧ ((((securityGroupsConstruct props).group Tier.app).ingress.all
        fun r => r.targetsTier Tier.web) = true)
    ∧ ((((securityGroupsConstruct props).group Tier.db).ingress.all
        fun r => r.targetsTier Tier.app) = true) := by
  refine ⟨rfl, ?_, ?_, ?_, ?_⟩
  · intro t ht
    cases t
    · exact absurd rfl ht
    all_goals
      simp [securityGroupsConstruct, SecurityGroups.group, tcpRule, Peer.isSg]
  all_goals
    simp [securityGroupsConstruct, SecurityGroups.group, tcpRule, Rule.targetsTier]

/-- Witness for C8: in the development configuration the web-tier ingress
rules are all bound to a security-group identity. -/
theorem ingress_identity_based_witness :
    (((securityGroupsConstruct devConfig.toSecurityGroupsProps).group Tier.web).ingress.all
      fun r => r.peer.isSg) = true :=
  (ingress_identity_based devConfig.toSecurityGroupsProps).2.1 Tier.web (by decide)

/-- C9: the ALB security group receives exactly one ingress rule, TCP on
httpPort from the allowHttpFrom CIDR, and no ingress rule of any group is
built from the httpsPort input: every ingress rule list is invariant under
changes to httpsPort. -/
theorem alb_single_http_ingress (props : SecurityGroupsProps) :
    (securityGroupsConstruct props).albSecurityGroup.ingress
      = [tcpRule (Peer.ipv4 props.allowHttpFrom) props.httpPort
          "Allow HTTP traffic from internet"]
    ∧ ∀ (h : Nat) (t : Tier),
        ((securityGroupsConstruct { props with httpsPort := h }).group t).ingress
          = ((securityGroupsConstruct props).group t).ingress := by
  refine ⟨rfl, ?_⟩
  intro h t
  cases t <;> rfl

/-- Witness for C9: concrete instance at the development configuration with
httpsPort swapped to 8443. -/
theorem alb_single_http_ingress_witness :
    ((securityGroupsConstruct
        { devConfig.toSecurityGroupsProps with httpsPort := 8443 }).group Tier.alb).ingress
      = ((securityGroupsConstruct devConfig.toSecurityGroupsProps).group Tier.alb).ingress :=
  (alb_single_http_ingress devConfig.toSecurityGroupsProps).2 8443 Tier.alb

/-- C10: with allowPackageDownloads absent, the web-tier and app-tier groups
each receive exactly the two internet-bound egress rules (TCP on httpPort and
on httpsPort to any IPv4 address), while under every configuration the ALB and
database groups receive no any-IPv4 egress rule. -/
theorem packageDownload_egress_default (props : SecurityGroupsProps)
    (h : props.allowPackageDownloads = none) :
    ((securityGroupsConstruct props).webTierSecurityGroup.egress.filter
        fun r => r.peer.isAnyIpv4)
      = packageDownloadRules props.httpPort props.httpsPort
    ∧ ((securityGroupsConstruct props).appTierSecurityGroup.egress.filter
        fun r => r.peer.isAnyIpv4)
      = packageDownloadRules props.httpPort props.httpsPort
    ∧ (∀ q : SecurityGroupsProps,
        ((securityGroupsConstruct q).albSecurityGroup.egress.filter
            fun r => r.peer.isAnyIpv4) = []
        ∧ ((securityGroupsConstruct q).dbSecurityGroup.egress.filter
            fun r => r.peer.isAnyIpv4) = []) := by
  refine ⟨?_, ?_, ?_⟩
  · simp [securityGroupsConstruct, h, packageDownloadRules, tcpRule, Peer.isAnyIpv4]
  · simp [securityGroupsConstruct, h, packageDownloadRules, tcpRule, Peer.isAnyIpv4]
  · intro q
    exact ⟨by simp [securityGroupsConstruct, tcpRule, Peer.isAnyIpv4],
           by simp [securityGroupsConstruct, tcpRule, Peer.isAnyIpv4]⟩

/-- Witness for C10: the development configuration leaves allowPackageDownloads
absent, and its web tier carries exactly the two package-download egress
rules. -/
theorem packageDownload_egress_default_witness :
    ((securityGroupsConstruct devConfig.toSecurityGroupsProps).webTierSecurityGroup.egress.filter
        fun r => r.peer.isAnyIpv4)
      = packageDownloadRules devConfig.toSecurityGroupsProps.httpPort
          devConfig.toSecurityGroupsProps.httpsPort :=
  (packageDownload_egress_default devConfig.toSecurityGroupsProps rfl).1

/-- The ASG props of the development app tier, used as a base point. -/
def devAppTierAsgProps : AsgProps := asgPropsOf devConfig.appTier devConfig.storage

/-- C4 counterexample: an invalid subnet-tier keyword does not abort assembly
and is not reported; the construct silently substitutes the default
PRIVATE_WITH_EGRESS, producing a descriptor identical to the one a valid
keyword produces. -/
theorem invalid_subnet_keyword_silently_defaults :
    appTierAsgConstruct { devAppTierAsgProps with subnetType := some "NOT_A_SUBNET_TIER" }
      = appTierAsgConstruct { devAppTierAsgProps with subnetType := some "PRIVATE_WITH_EGRESS" }
    ∧ subnetTypeOf (some "NOT_A_SUBNET_TIER") = SubnetType.PRIVATE_WITH_EGRESS := by
  exact ⟨by decide, by decide⟩

/-- C4 amended: the assembly substitutes silent defaults instead of aborting:
every subnet-tier keyword other than PUBLIC and PRIVATE_ISOLATED is mapped to
PRIVATE_WITH_EGRESS without an error, and an absent allowPackageDownloads is
treated exactly as an explicit true. -/
theorem silent_default_substitution (s : String) (props : SecurityGroupsProps)
    (h1 : s ≠ "PUBLIC") (h2 : s ≠ "PRIVATE_ISOLATED") :
    subnetTypeOf (some s) = SubnetType.PRIVATE_WITH_EGRESS
    ∧ securityGroupsConstruct { props with allowPackageDownloads := none }
      = securityGroupsConstruct { props with allowPackageDownloads := some true } := by
  exact ⟨by simp [subnetTypeOf, h1, h2], rfl⟩

/-- Witness for the amended C4: the keyword ISOLATED (not a recognized value)
is silently mapped to the default subnet tier. -/
theorem silent_default_substitution_witness :
    subnetTypeOf (some "ISOLATED") = SubnetType.PRIVATE_WITH_EGRESS :=
  (silent_default_substitution "ISOLATED" devConfig.toSecurityGroupsProps
    (by decide) (by decide)).1

/-- C3: for every configuration, one evaluation of the top-level assembly
derives exactly one VPC, one load balancer, two auto-scaling groups, one
database instance and four security groups. -/
theorem resource_graph_counts (cfg : Config) :
    countResources Resource.isVpc (buildStack cfg) = 1
    ∧ countResources Resource.isLoadBalancer (buildStack cfg) = 1
    ∧ countResources Resource.isAutoScalingGroup (buildStack cfg) = 2
    ∧ countResources Resource.isDbInstance (buildStack cfg) = 1
    ∧ countResources Resource.isSecurityGroup (buildStack cfg) = 4 := by
  refine ⟨?_, ?_, ?_, ?_, ?_⟩ <;>
    simp [buildStack, vpcConstruct, networkAclConstruct, albConstruct, rdsConstruct,
      countResources, List.filter_append, List.filter_map, Function.comp_def,
      List.filter_cons, Resource.isVpc, Resource.isLoadBalancer,
      Resource.isAutoScalingGroup, Resource.isDbInstance, Resource.isSecurityGroup]

/-- C5: a configuration with zone count 2 derives exactly 6 subnets (3 tiers
in each of 2 zones) and 2 NAT egress points; one with zone count 3 derives
exactly 9 subnets and 3 NAT egress points. -/
theorem subnet_and_nat_counts (cfg : Config) :
    (cfg.maxAzs = 2 →
      countResources Resource.isSubnet (buildStack cfg) = 6
      ∧ countResources Resource.isNatGateway (buildStack cfg) = 2)
    ∧ (cfg.maxAzs = 3 →
      countResources Resource.isSubnet (buildStack cfg) = 9
      ∧ countResources Resource.isNatGateway (buildStack cfg) = 3) := by
  constructor <;> intro h <;> constructor <;>
    simp [buildStack, vpcConstruct, networkAclConstruct, albConstruct, rdsConstruct, h,
      countResources, List.filter_append, List.filter_map, Function.comp_def,
      List.filter_cons, Resource.isSubnet, Resource.isNatGateway]

/-- Witness for C5: the development configuration uses two availability zones
and derives 6 subnets and 2 NAT gateways; raising the zone count to 3 yields
9 and 3. -/
theorem subnet_and_nat_counts_witness :
    (countResources Resource.isSubnet (buildStack devConfig) = 6
      ∧ countResources Resource.isNatGateway (buildStack devConfig) = 2)
    ∧ (countResources Resource.isSubnet (buildStack { devConfig with maxAzs := 3 }) = 9
      ∧ countResources Resource.isNatGateway (buildStack { devConfig with maxAzs := 3 }) = 3) :=
  ⟨(subnet_and_nat_counts devConfig).1 rfl,
   (subnet_and_nat_counts { devConfig with maxAzs := 3 }).2 rfl⟩

/-- C6: a configuration giving the web tier minCapacity 2, maxCapacity 6,
desiredCapacity 2 and targetCpuUtilization 70 derives a web-tier scaling-group
descriptor carrying exactly those capacities together with a CPU
target-tracking policy at 70 percent, both present in the resource graph. -/
theorem webTier_scaling_descriptor (cfg : Config)
    (h1 : cfg.webTier.minCapacity = 2) (h2 : cfg.webTier.maxCapacity = 6)
    (h3 : cfg.webTier.desiredCapacity = 2) (h4 : cfg.webTier.targetCpuUtilization = 70) :
    cfg.webAsg.1.minCapacity = 2
    ∧ cfg.webAsg.1.maxCapacity = 6
    ∧ cfg.webAsg.1.desiredCapacity = 2
    ∧ cfg.webAsg.2.targetUtilizationPercent = 70
    ∧ Resource.autoScalingGroup cfg.webAsg.1 ∈ buildStack cfg
    ∧ Resource.scalingPolicy cfg.webAsg.2 ∈ buildStack cfg := by
  refine ⟨?_, ?_, ?_, ?_, ?_, ?_⟩
  · simpa [Config.webAsg, webTierAsgConstruct, appTierAsgConstruct, asgPropsOf] using h1
  · simpa [Config.webAsg, webTierAsgConstruct, appTierAsgConstruct, asgPropsOf] using h2
  · simpa [Config.webAsg, webTierAsgConstruct, appTierAsgConstruct, asgPropsOf] using h3
  · simpa [Config.webAsg, webTierAsgConstruct, appTierAsgConstruct, asgPropsOf] using h4
  · simp [buildStack, vpcConstruct, networkAclConstruct, albConstruct, rdsConstruct]
  · simp [buildStack, vpcConstruct, networkAclConstruct, albConstruct, rdsConstruct]

/-- Witness for C6: the development configuration carries exactly those web-tier
values, and its derived descriptor reproduces them. -/
theorem webTier_scaling_descriptor_witness :
    devConfig.webAsg.1.minCapacity = 2
    ∧ devConfig.webAsg.2.targetUtilizationPercent = 70 :=
  ⟨(webTier_scaling_descriptor devConfig rfl rfl rfl rfl).1,
   (webTier_scaling_descriptor devConfig rfl rfl rfl rfl).2.2.2.1⟩

/-- C7: the configuration-to-resource-graph derivation is deterministic: two
evaluations of the assembly on the same configuration document yield the same
resource graph. -/
theorem buildStack_deterministic (cfg : Config) (g₁ g₂ : List Resource)
    (h₁ : buildStack cfg = g₁) (h₂ : buildStack cfg = g₂) : g₁ = g₂ := by
  rw [← h₁, ← h₂]

/-- Witness for C7: two evaluations on the development configuration agree. -/
theorem buildStack_deterministic_witness :
    buildStack devConfig = buildStack devConfig :=
  buildStack_deterministic devConfig (buildStack devConfig) (buildStack devConfig) rfl rfl

end ThreeTier
